import Mathlib

/-!
Verification of the user-space syscall boundary layer of the Rodnix
operating system (crates userspace/lib and userspace/drivers).

The embedding models:
* the register file of the i386 trap convention used by the source
  (service identifier in eax, arguments in ebx, ecx, edx, esi, edi,
  result in eax);
* the six trap gateway functions syscall0 .. syscall5, each of which
  marshals its arguments into the register file and executes exactly one
  trap instruction, returning the word the kernel leaves in eax; the
  kernel on the other side of the trap is an environment parameter
  (a function from register files to result words);
* the service catalog constants SYS_EXIT .. SYS_COPY_FROM_USER;
* the public types DeviceId, Capability, Device and IpcMessage and
  their repr(C) layouts;
* the public item surface of the two crates, used to state claims about
  which functions the layer does and does not expose;
* the drivers crate panic handler as a step relation.
-/

namespace Rodnix

/-- The i386 register file as used by the trap convention of
src/userspace/lib/src/syscalls.rs: eax carries the service identifier on
entry and the result on exit; ebx, ecx, edx, esi, edi carry up to five
arguments.  Each register holds one machine word, modelled as a Nat. -/
structure RegFile where
  eax : Nat
  ebx : Nat
  ecx : Nat
  edx : Nat
  esi : Nat
  edi : Nat
deriving DecidableEq, Repr

/-- The kernel on the far side of the trap instruction: given the
register file at the moment of the trap, it produces the word placed in
eax when control returns to user space.  It is an external collaborator,
so it is a parameter of every gateway. -/
def KernelSide : Type := RegFile → Nat

/-- syscall0: marshals the identifier into eax, leaves the other
registers as the caller's environment had them, executes one trap and
returns the kernel's word.  The second component is the trace of trap
instructions executed, each entry recording the register file presented
to the kernel. -/
def syscall0 (kernel : KernelSide) (init : RegFile) (n : Nat) :
    Nat × List RegFile :=
  let regs : RegFile := ⟨n, init.ebx, init.ecx, init.edx, init.esi, init.edi⟩
  (kernel regs, [regs])

/-- syscall1: identifier in eax, arg1 in ebx. -/
def syscall1 (kernel : KernelSide) (init : RegFile) (n arg1 : Nat) :
    Nat × List RegFile :=
  let regs : RegFile := ⟨n, arg1, init.ecx, init.edx, init.esi, init.edi⟩
  (kernel regs, [regs])

/-- syscall2: identifier in eax, arg1 in ebx, arg2 in ecx. -/
def syscall2 (kernel : KernelSide) (init : RegFile) (n arg1 arg2 : Nat) :
    Nat × List RegFile :=
  let regs : RegFile := ⟨n, arg1, arg2, init.edx, init.esi, init.edi⟩
  (kernel regs, [regs])

/-- syscall3: identifier in eax, arg1 in ebx, arg2 in ecx, arg3 in edx. -/
def syscall3 (kernel : KernelSide) (init : RegFile) (n arg1 arg2 arg3 : Nat) :
    Nat × List RegFile :=
  let regs : RegFile := ⟨n, arg1, arg2, arg3, init.esi, init.edi⟩
  (kernel regs, [regs])

/-- syscall4: identifier in eax, arguments in ebx, ecx, edx, esi. -/
def syscall4 (kernel : KernelSide) (init : RegFile)
    (n arg1 arg2 arg3 arg4 : Nat) : Nat × List RegFile :=
  let regs : RegFile := ⟨n, arg1, arg2, arg3, arg4, init.edi⟩
  (kernel regs, [regs])

/-- syscall5: identifier in eax, arguments in ebx, ecx, edx, esi, edi. -/
def syscall5 (kernel : KernelSide) (init : RegFile)
    (n arg1 arg2 arg3 arg4 arg5 : Nat) : Nat × List RegFile :=
  let regs : RegFile := ⟨n, arg1, arg2, arg3, arg4, arg5⟩
  (kernel regs, [regs])

/-- Syscall number SYS_EXIT from src/userspace/lib/src/syscalls.rs. -/
def SYS_EXIT : Nat := 1

/-- Syscall number SYS_READ. -/
def SYS_READ : Nat := 2

/-- Syscall number SYS_WRITE. -/
def SYS_WRITE : Nat := 3

/-- Syscall number SYS_IPC_SEND. -/
def SYS_IPC_SEND : Nat := 4

/-- Syscall number SYS_IPC_RECV. -/
def SYS_IPC_RECV : Nat := 5

/-- Syscall number SYS_COPY_TO_USER. -/
def SYS_COPY_TO_USER : Nat := 6

/-- Syscall number SYS_COPY_FROM_USER. -/
def SYS_COPY_FROM_USER : Nat := 7

/-- The service catalog as the ordered list of its constants. -/
def serviceCatalog : List Nat :=
  [SYS_EXIT, SYS_READ, SYS_WRITE, SYS_IPC_SEND, SYS_IPC_RECV,
   SYS_COPY_TO_USER, SYS_COPY_FROM_USER]

/-- Classification of a public item of the user-space crates: a raw trap
gateway of a given arity, a service-number constant with its value, a
type definition, a typed per-service wrapper function (the kind the spec
requires; tracked so its absence or presence can be stated), the panic
handler, or a language-item stub. -/
inductive ItemKind where
  | rawGateway (arity : Nat)
  | serviceConst (value : Nat)
  | typeDef
  | typedWrapper (service : Nat)
  | panicHandler
  | langItem
deriving DecidableEq, Repr

/-- A public item of a crate: its source name and its kind. -/
structure PubItem where
  name : String
  kind : ItemKind
deriving DecidableEq, Repr

/-- The public items of the userspace/lib crate, in source order
(src/userspace/lib/src/syscalls.rs followed by
src/userspace/lib/src/types.rs). -/
def libPublicItems : List PubItem :=
  [⟨"syscall0", ItemKind.rawGateway 0⟩,
   ⟨"syscall1", ItemKind.rawGateway 1⟩,
   ⟨"syscall2", ItemKind.rawGateway 2⟩,
   ⟨"syscall3", ItemKind.rawGateway 3⟩,
   ⟨"syscall4", ItemKind.rawGateway 4⟩,
   ⟨"syscall5", ItemKind.rawGateway 5⟩,
   ⟨"SYS_EXIT", ItemKind.serviceConst 1⟩,
   ⟨"SYS_READ", ItemKind.serviceConst 2⟩,
   ⟨"SYS_WRITE", ItemKind.serviceConst 3⟩,
   ⟨"SYS_IPC_SEND", ItemKind.serviceConst 4⟩,
   ⟨"SYS_IPC_RECV", ItemKind.serviceConst 5⟩,
   ⟨"SYS_COPY_TO_USER", ItemKind.serviceConst 6⟩,
   ⟨"SYS_COPY_FROM_USER", ItemKind.serviceConst 7⟩,
   ⟨"DeviceId", ItemKind.typeDef⟩,
   ⟨"Capability", ItemKind.typeDef⟩,
   ⟨"Device", ItemKind.typeDef⟩,
   ⟨"IpcMessage", ItemKind.typeDef⟩]

/-- The public items of the userspace/drivers crate
(src/userspace/drivers/src/lib.rs): only the panic handler and the
eh_personality language item; the driver body is a placeholder comment. -/
def driversPublicItems : List PubItem :=
  [⟨"panic", ItemKind.panicHandler⟩,
   ⟨"eh_personality", ItemKind.langItem⟩]

/-- All public items of the reviewed user-space source. -/
def allPublicItems : List PubItem := libPublicItems ++ driversPublicItems

/-- Helper: whether an item kind is a typed per-service wrapper. -/
def isTypedWrapper : ItemKind → Bool
  | ItemKind.typedWrapper _ => true
  | _ => false

/-- The value 2^32, the number of values of the 32-bit unsigned types
(u32, and usize on the i386 target the trap convention of the source
addresses). -/
def WORD32 : Nat := 2 ^ 32

/-- The value 2^64, the number of values of the 64-bit unsigned type
u64. -/
def WORD64 : Nat := 2 ^ 64

instance : NeZero WORD32 := ⟨by decide⟩

instance : NeZero WORD64 := ⟨by decide⟩

/-- A 32-bit unsigned machine value. -/
abbrev Word32 := Fin WORD32

/-- DeviceId from src/userspace/lib/src/types.rs: a plain type alias of
u32 (pub type DeviceId = u32), so every operation available on the
32-bit unsigned type — equality and order comparisons included — is
available on DeviceId. -/
abbrev DeviceId := Word32

/-- Capability from src/userspace/lib/src/types.rs: a plain type alias
of u64. -/
abbrev Capability := Fin WORD64

/-- Device from src/userspace/lib/src/types.rs, repr(C): id (u32),
name ([u8; 32]), device_type (u32), in that order. -/
structure Device where
  id : DeviceId
  name : Fin 32 → Fin 256
  device_type : Word32

/-- IpcMessage from src/userspace/lib/src/types.rs, repr(C): from (u32),
to (u32), data ([u8; 256]), len (usize), in that order.  All four fields
are public in the source, so any combination of field values — any len
value in particular — is constructible by client code; no constructor
function or validation exists in the source. -/
structure IpcMessage where
  «from» : Word32
  «to» : Word32
  data : Fin 256 → Fin 256
  len : Word32

/-- Size and alignment of one struct field, in bytes, with its source
field name. -/
structure FieldLayout where
  fname : String
  size : Nat
  align : Nat
deriving DecidableEq, Repr

/-- Round off up to the next multiple of a. -/
def alignUp (off a : Nat) : Nat := (off + a - 1) / a * a

/-- repr(C) struct layout: each field is placed at the next offset
aligned to the field's alignment; the struct size is the end of the last
field rounded up to the struct alignment (the maximum field alignment).
Returns the list of field offsets and the struct size. -/
def cLayout (fields : List FieldLayout) : List Nat × Nat :=
  let fin := fields.foldl
    (fun (acc : List Nat × Nat × Nat) f =>
      let off := alignUp acc.2.1 f.align
      (acc.1 ++ [off], (off + f.size, max acc.2.2 f.align)))
    ([], (0, 1))
  (fin.1, alignUp fin.2.1 fin.2.2)

/-- The field sizes and alignments of IpcMessage on a target whose
machine word (usize) is wb bytes: from and to are 4-byte u32, data is a
256-byte array of 1-byte elements, len is a wb-byte usize. -/
def ipcMessageFields (wb : Nat) : List FieldLayout :=
  [⟨"from", 4, 4⟩, ⟨"to", 4, 4⟩, ⟨"data", 256, 1⟩, ⟨"len", wb, wb⟩]

/-- The field sizes and alignments of Device: id is a 4-byte u32, name a
32-byte array of 1-byte elements, device_type a 4-byte u32. -/
def deviceFields : List FieldLayout :=
  [⟨"id", 4, 4⟩, ⟨"name", 32, 1⟩, ⟨"device_type", 4, 4⟩]

/-- The truncation error code.  Modelled from the spec: the spec's error
taxonomy fixes only that errors are negative sentinel values in the trap
result and that truncation is a defined error; truncation is the sixth
entry of the taxonomy, so -6 is used as its sentinel here. -/
def E_TRUNCATION : Int := -6

/-- Modelled from the spec: the kernel-side dispatcher for the
SYS_IPC_SEND service is not part of the reviewed source (only the
service constant and the message type are).  Per the spec, the result is
0 on accepted delivery and a negative error otherwise, and a message
whose length exceeds the 256-byte payload capacity must be rejected with
a defined error, never delivered truncated.  The second component is the
message delivered to the recipient, none when delivery is rejected. -/
def ipcSend (target : Word32) (m : IpcMessage) : Int × Option IpcMessage :=
  if (m.len : Nat) ≤ 256 then (0, some m) else (E_TRUNCATION, none)

/-- Result of modelling negative kernel error codes in the unsigned trap
result word: the two's-complement image of an integer in a w-bit word,
as the unsigned value the caller receives. -/
def toUnsigned (w : Nat) (e : Int) : Nat := (e % ((2 : Int) ^ w)).toNat

/-- Execution state of the drivers crate panic handler: still inside the
loop, returned to the caller, or aborted/halted. -/
inductive PanicState where
  | looping
  | returned
  | aborted
deriving DecidableEq, Repr

/-- One iteration of the panic handler body, from
src/userspace/drivers/src/lib.rs: the handler body is an infinite loop
with an empty body, so one iteration from the looping state is again the
looping state; no statement of the body can reach the returned or
aborted state. -/
def panicStep : PanicState → PanicState
  | PanicState.looping => PanicState.looping
  | s => s

/-- The drivers crate panic handler, as the state it is in after n loop
iterations.  It ignores the panic info argument entirely (the source
binds it as an unused parameter) and immediately enters the loop. -/
def panicTrace (info : Nat) (n : Nat) : PanicState :=
  panicStep^[n] PanicState.looping

/-- The failure information the panic handler emits: none — the source
handler performs no output, logging, or abort action of any kind. -/
def panicReport (info : Nat) : List Nat := []

end Rodnix

namespace Rodnix

/-- C1: the service catalog constants bind exactly exit=1, read=2,
write=3, ipc-send=4, ipc-receive=5, copy-to-user=6, copy-from-user=7;
the seven identifiers are pairwise distinct and dense (consecutive
values 1..7 with no gaps). -/
theorem service_catalog_dense_distinct :
    SYS_EXIT = 1 ∧ SYS_READ = 2 ∧ SYS_WRITE = 3 ∧ SYS_IPC_SEND = 4 ∧
    SYS_IPC_RECV = 5 ∧ SYS_COPY_TO_USER = 6 ∧ SYS_COPY_FROM_USER = 7 ∧
    serviceCatalog.Nodup ∧
    serviceCatalog = List.range' 1 7 := by
  refine ⟨rfl, rfl, rfl, rfl, rfl, rfl, rfl, ?_, ?_⟩ <;> decide

/-- C2: for every arity from 0 to 5 the layer exposes exactly one trap
gateway function; each one places the service identifier in eax and each
argument unmodified in its fixed positional slot (arg1 in ebx, arg2 in
ecx, arg3 in edx, arg4 in esi, arg5 in edi), leaves the remaining
argument registers exactly as the caller's environment had them,
executes exactly one trap instruction (the trap trace is the singleton
of the marshalled register file), and returns exactly one scalar result,
the word the kernel leaves in eax. -/
theorem trap_gateway_marshaling :
    ((libPublicItems.filter fun i => i.kind == ItemKind.rawGateway 0).length = 1 ∧
     (libPublicItems.filter fun i => i.kind == ItemKind.rawGateway 1).length = 1 ∧
     (libPublicItems.filter fun i => i.kind == ItemKind.rawGateway 2).length = 1 ∧
     (libPublicItems.filter fun i => i.kind == ItemKind.rawGateway 3).length = 1 ∧
     (libPublicItems.filter fun i => i.kind == ItemKind.rawGateway 4).length = 1 ∧
     (libPublicItems.filter fun i => i.kind == ItemKind.rawGateway 5).length = 1) ∧
    ∀ (kernel : KernelSide) (init : RegFile) (n a1 a2 a3 a4 a5 : Nat),
      syscall0 kernel init n =
        (kernel ⟨n, init.ebx, init.ecx, init.edx, init.esi, init.edi⟩,
         [⟨n, init.ebx, init.ecx, init.edx, init.esi, init.edi⟩]) ∧
      syscall1 kernel init n a1 =
        (kernel ⟨n, a1, init.ecx, init.edx, init.esi, init.edi⟩,
         [⟨n, a1, init.ecx, init.edx, init.esi, init.edi⟩]) ∧
      syscall2 kernel init n a1 a2 =
        (kernel ⟨n, a1, a2, init.edx, init.esi, init.edi⟩,
         [⟨n, a1, a2, init.edx, init.esi, init.edi⟩]) ∧
      syscall3 kernel init n a1 a2 a3 =
        (kernel ⟨n, a1, a2, a3, init.esi, init.edi⟩,
         [⟨n, a1, a2, a3, init.esi, init.edi⟩]) ∧
      syscall4 kernel init n a1 a2 a3 a4 =
        (kernel ⟨n, a1, a2, a3, a4, init.edi⟩,
         [⟨n, a1, a2, a3, a4, init.edi⟩]) ∧
      syscall5 kernel init n a1 a2 a3 a4 a5 =
        (kernel ⟨n, a1, a2, a3, a4, a5⟩, [⟨n, a1, a2, a3, a4, a5⟩]) := by
  exact ⟨by decide, fun kernel init n a1 a2 a3 a4 a5 =>
    ⟨rfl, rfl, rfl, rfl, rfl, rfl⟩⟩

/-- C3: for every service identifier value — the quantification over n
is unrestricted, so identifiers outside the catalog (such as 999) are
included — and every argument tuple, each trap gateway is a total
function (it always returns) and its scalar result is exactly the word
the kernel produced at the marshalled register file, verbatim: no
validation, no retry, no transformation; any failure encoding lives
solely inside that returned word. -/
theorem trap_gateway_verbatim_total :
    ∀ (kernel : KernelSide) (init : RegFile) (n a1 a2 a3 a4 a5 : Nat),
      (syscall0 kernel init n).1 =
        kernel ⟨n, init.ebx, init.ecx, init.edx, init.esi, init.edi⟩ ∧
      (syscall1 kernel init n a1).1 =
        kernel ⟨n, a1, init.ecx, init.edx, init.esi, init.edi⟩ ∧
      (syscall2 kernel init n a1 a2).1 =
        kernel ⟨n, a1, a2, init.edx, init.esi, init.edi⟩ ∧
      (syscall3 kernel init n a1 a2 a3).1 =
        kernel ⟨n, a1, a2, a3, init.esi, init.edi⟩ ∧
      (syscall4 kernel init n a1 a2 a3 a4).1 =
        kernel ⟨n, a1, a2, a3, a4, init.edi⟩ ∧
      (syscall5 kernel init n a1 a2 a3 a4 a5).1 =
        kernel ⟨n, a1, a2, a3, a4, a5⟩ := by
  exact fun kernel init n a1 a2 a3 a4 a5 => ⟨rfl, rfl, rfl, rfl, rfl, rfl⟩

/-- C4: on a target whose machine word is 4 or 8 bytes, IpcMessage has
exactly the fields from (the spec's sender, 4 bytes), to (recipient,
4 bytes), data (payload, 256 bytes), len (length, one machine word), in
that order; the repr(C) layout places them at offsets 0, 4, 8, 264 with
no internal padding, and the struct size 264 + wb equals the sum of the
field sizes. -/
theorem ipc_message_layout (wb : Nat) (hwb : wb = 4 ∨ wb = 8) :
    (ipcMessageFields wb).map FieldLayout.fname = ["from", "to", "data", "len"] ∧
    (ipcMessageFields wb).map FieldLayout.size = [4, 4, 256, wb] ∧
    cLayout (ipcMessageFields wb) = ([0, 4, 8, 264], 264 + wb) ∧
    264 + wb = 4 + 4 + 256 + wb := by
  rcases hwb with h | h <;> subst h <;>
    exact ⟨by decide, by decide, by decide, rfl⟩

/-- Witness for the C4 theorem at the 4-byte word size of the i386
target: the layout is offsets 0, 4, 8, 264 and total size 268. -/
theorem ipc_message_layout_witness :
    ((4 : Nat) = 4 ∨ (4 : Nat) = 8) ∧
    cLayout (ipcMessageFields 4) = ([0, 4, 8, 264], 268) :=
  ⟨Or.inl rfl, (ipc_message_layout 4 (Or.inl rfl)).2.2.1⟩

/-- C5 counterexample: the len ≤ 256 invariant is not enforced by the
code: all four fields of IpcMessage are public and the source has no
constructor function or validation, so the value with from = 0, to = 0,
zero payload and len = 257 is constructible through the public
interface, and it violates len ≤ 256. -/
theorem ipc_len_invariant_fails :
    ¬ ∀ m : IpcMessage, (m.len : Nat) ≤ 256 := by
  intro h
  exact absurd (h ⟨0, 0, fun _ => 0, 257⟩) (by decide)

/-- C5 amended: the public interface does not restrict the length field:
for every 32-bit value n — values above 256 included — an IpcMessage
with len = n is constructible by setting the public fields directly;
this layer itself defines no operation that reads the payload, so no
payload byte is interpreted here. -/
theorem ipc_len_unconstrained :
    ∀ n : Word32, ∃ m : IpcMessage, m.len = n :=
  fun n => ⟨⟨0, 0, fun _ => 0, n⟩, rfl⟩

/-- C6: a message whose length exceeds the 256-byte payload capacity is
rejected at send time with the defined truncation error (a negative
result) and nothing is delivered — in particular it is never delivered
silently truncated.  The kernel-side dispatcher is modelled from the
spec, since only its service constant and the message type are in the
reviewed source. -/
theorem ipc_send_rejects_overlong (t : Word32) (m : IpcMessage)
    (h : 256 < (m.len : Nat)) :
    (ipcSend t m).1 = E_TRUNCATION ∧ (ipcSend t m).1 < 0 ∧
    (ipcSend t m).2 = none := by
  have hnot : ¬ (m.len : Nat) ≤ 256 := by omega
  unfold ipcSend
  rw [if_neg hnot]
  exact ⟨rfl, by norm_num [E_TRUNCATION], rfl⟩

/-- Witness for the C6 theorem: the concrete message with len = 257 is
rejected with a negative result and no delivery. -/
theorem ipc_send_rejects_overlong_witness :
    256 < (((⟨0, 0, fun _ => 0, 257⟩ : IpcMessage)).len : Nat) ∧
    (ipcSend 0 ⟨0, 0, fun _ => 0, 257⟩).1 < 0 ∧
    (ipcSend 0 ⟨0, 0, fun _ => 0, 257⟩).2 = none :=
  ⟨by decide,
   (ipc_send_rejects_overlong 0 ⟨0, 0, fun _ => 0, 257⟩ (by decide)).2.1,
   (ipc_send_rejects_overlong 0 ⟨0, 0, fun _ => 0, 257⟩ (by decide)).2.2⟩

/-- C7 counterexample: the layer exposes no typed wrapper for the exit
service: no public item of either crate is a typed per-service wrapper,
so the claim that every catalog service has one fails already at
service exit = 1. -/
theorem no_typed_wrapper_for_exit :
    ¬ ∃ i ∈ allPublicItems, i.kind = ItemKind.typedWrapper SYS_EXIT := by
  decide

/-- C7 amended: the layer exposes no typed per-service wrapper at all:
its public functions are only the raw trap gateways syscall0..syscall5
(plus the service constants and type definitions, and the drivers crate
placeholder items), so driver code can reach a kernel service only by
calling a raw gateway directly. -/
theorem no_typed_wrappers :
    ∀ i ∈ allPublicItems, ∀ s : Nat, i.kind ≠ ItemKind.typedWrapper s := by
  have hall : ∀ i ∈ allPublicItems, isTypedWrapper i.kind = false := by decide
  intro i hi s hcontra
  have h1 := hall i hi
  rw [hcontra] at h1
  simp [isTypedWrapper] at h1

/-- Witness for the C7 amended theorem at the concrete item syscall0 and
service 1. -/
theorem no_typed_wrappers_witness :
    (⟨"syscall0", ItemKind.rawGateway 0⟩ : PubItem) ∈ allPublicItems ∧
    (⟨"syscall0", ItemKind.rawGateway 0⟩ : PubItem).kind ≠
      ItemKind.typedWrapper 1 :=
  ⟨by decide, no_typed_wrappers ⟨"syscall0", ItemKind.rawGateway 0⟩ (by decide) 1⟩

/-- C8 counterexample: DeviceId is a plain type alias of u32 in the
source, so it inherits the 32-bit unsigned integer's linear order: the
order comparison 0 < 1 is well-typed and true at type DeviceId, refuting
the part of the claim that says DeviceId supports no ordering. -/
theorem deviceid_ordering_available :
    Nonempty (LinearOrder DeviceId) ∧ (0 : DeviceId) < 1 :=
  ⟨⟨inferInstance⟩, by decide⟩

/-- C8 amended: DeviceId is a 32-bit unsigned value supporting equality
comparison and — being a plain integer alias — also ordering; Capability
is a 64-bit value; Device has exactly the fields id (4 bytes), name
(32-byte buffer), device_type (4 bytes), in that order, and its repr(C)
layout is offsets 0, 4, 36 with size 40 = 4 + 32 + 4 (no padding). -/
theorem device_capability_model :
    Nonempty (DecidableEq DeviceId) ∧
    Nonempty (LinearOrder DeviceId) ∧
    (∀ d : DeviceId, (d : Nat) < 2 ^ 32) ∧
    (∀ c : Capability, (c : Nat) < 2 ^ 64) ∧
    deviceFields.map FieldLayout.fname = ["id", "name", "device_type"] ∧
    deviceFields.map FieldLayout.size = [4, 32, 4] ∧
    cLayout deviceFields = ([0, 4, 36], 40) ∧
    (40 : Nat) = 4 + 32 + 4 :=
  ⟨⟨inferInstance⟩, ⟨inferInstance⟩, fun d => d.isLt, fun c => c.isLt,
   by decide, by decide, by decide, rfl⟩

/-- C9: every trap gateway returns an unsigned machine word.  When the
kernel reports a negative error code e (of magnitude at most 2^h, in a
word of w = h + 1 bits), the word the caller receives through every
gateway is the two's-complement image e + 2^w: an unsigned value lying
in the upper half of the word range.  The gateway performs no signed
reinterpretation — its result is exactly that unsigned image. -/
theorem trap_result_unsigned (h : Nat) (e : Int) (he1 : -(2 ^ h) ≤ e)
    (he2 : e < 0) (kernel : KernelSide)
    (hker : ∀ r, kernel r = toUnsigned (h + 1) e) :
    ((toUnsigned (h + 1) e : Int) = e + 2 ^ (h + 1) ∧
     2 ^ h ≤ toUnsigned (h + 1) e ∧ toUnsigned (h + 1) e < 2 ^ (h + 1)) ∧
    ∀ (init : RegFile) (n a1 a2 a3 a4 a5 : Nat),
      (syscall0 kernel init n).1 = toUnsigned (h + 1) e ∧
      (syscall1 kernel init n a1).1 = toUnsigned (h + 1) e ∧
      (syscall2 kernel init n a1 a2).1 = toUnsigned (h + 1) e ∧
      (syscall3 kernel init n a1 a2 a3).1 = toUnsigned (h + 1) e ∧
      (syscall4 kernel init n a1 a2 a3 a4).1 = toUnsigned (h + 1) e ∧
      (syscall5 kernel init n a1 a2 a3 a4 a5).1 = toUnsigned (h + 1) e := by
  have hhp : (0 : Int) < 2 ^ h := by positivity
  have hkk : ((2 : Int) ^ (h + 1)) = 2 ^ h + 2 ^ h := by rw [pow_succ]; ring
  have h0 : (0 : Int) ≤ e + 2 ^ (h + 1) := by omega
  have h1 : e + 2 ^ (h + 1) < 2 ^ (h + 1) := by omega
  have hmod : e % ((2 : Int) ^ (h + 1)) = e + 2 ^ (h + 1) := by
    have hx : (e + (2 : Int) ^ (h + 1) * 1) % ((2 : Int) ^ (h + 1)) =
        e % ((2 : Int) ^ (h + 1)) :=
      Int.add_mul_emod_self_left e ((2 : Int) ^ (h + 1)) 1
    rw [mul_one] at hx
    rw [← hx]
    exact Int.emod_eq_of_lt h0 h1
  have htu : (toUnsigned (h + 1) e : Int) = e + 2 ^ (h + 1) := by
    unfold toUnsigned
    rw [hmod, Int.toNat_of_nonneg h0]
  refine ⟨⟨htu, ?_, ?_⟩, ?_⟩
  · zify
    omega
  · zify
    omega
  · intro init n a1 a2 a3 a4 a5
    exact ⟨hker _, hker _, hker _, hker _, hker _, hker _⟩

/-- Witness for the C9 theorem at a 32-bit word and the error code -1:
its unsigned image is 4294967295, which lies in the upper half of the
32-bit range, and syscall0 invoked with the unrecognized identifier 999
returns it verbatim. -/
theorem trap_result_unsigned_witness :
    (-((2 : Int) ^ 31) ≤ -1) ∧ ((-1 : Int) < 0) ∧
    toUnsigned 32 (-1) = 4294967295 ∧
    2 ^ 31 ≤ toUnsigned 32 (-1) ∧
    (syscall0 (fun _ => toUnsigned 32 (-1)) ⟨0, 0, 0, 0, 0, 0⟩ 999).1 =
      toUnsigned 32 (-1) := by
  have H := trap_result_unsigned 31 (-1) (by norm_num) (by norm_num)
    (fun _ => toUnsigned 32 (-1)) (fun r => rfl)
  exact ⟨by norm_num, by norm_num, by decide, H.1.2.1,
    (H.2 ⟨0, 0, 0, 0, 0, 0⟩ 999 0 0 0 0 0).1⟩

/-- C10: the drivers crate panic handler never returns: for every panic
input and every number of executed loop iterations, the handler is still
in the looping state of its infinite empty loop — it never reaches a
returned or aborted/halted state — and it emits no failure
information. -/
theorem panic_handler_loops_forever :
    ∀ (info n : Nat),
      panicTrace info n = PanicState.looping ∧
      panicTrace info n ≠ PanicState.returned ∧
      panicTrace info n ≠ PanicState.aborted ∧
      panicReport info = [] := by
  have key : ∀ n, panicStep^[n] PanicState.looping = PanicState.looping := by
    intro n
    induction n with
    | zero => rfl
    | succ k ih => rw [Function.iterate_succ_apply', ih]; rfl
  intro info n
  refine ⟨key n, ?_, ?_, rfl⟩ <;> simp [panicTrace, key n]

end Rodnix
